import Mathlib

/-!
Shallow embedding of the CHIP-8 virtual machine from `src/lib.rs`
(struct `Chip8`, `Default::default`, `load`, `emulate_cycle`,
`fetch_opcode`, `execute_opcode`, `update_timers`), together with
theorems settling the specification claims.

Machine integers (`u8`, `u16`) are modelled as `Nat` with explicit
`% 256` / `% 65536` exactly where the source wraps (`Wrapping`,
`u8` shifts).  Rust panics (out-of-bounds indexing, explicit
`panic!` on an unrecognised opcode) are modelled by `Except Fault`:
a `panic!("Opcode {:#X} is bad", self.opcode)` becomes
`.error (.badOpcode w)` (the diagnostic carries the opcode, which is
all the panic message contains), and an array-bounds panic becomes
`.error .indexOutOfBounds`.  Fixed-size arrays (`memory`, `reg`,
`graphics`, `stack`, `key`) are modelled as total functions from the
index type, with the source's bounds checks made explicit at every
indexing site whose index is not already provably in range.
-/

/-- Size of the chip's memory: 4096 bytes (`NMEM` in the source). -/
def NMEM : Nat := 4096

/-- Number of registers (`NREG` in the source). -/
def NREG : Nat := 16

/-- Width of the display in pixels. -/
def WIDTH : Nat := 64

/-- Height of the display in pixels. -/
def HEIGHT : Nat := 32

/-- Total number of pixels (`NPIXELS` in the source). -/
def NPIXELS : Nat := WIDTH * HEIGHT

/-- The built-in font set, copied into memory during initialisation
(static `FONTSET` in the source, 80 bytes). -/
def FONTSET : List Nat :=
  [0xF0, 0x90, 0x90, 0x90, 0xF0,
   0x20, 0x60, 0x20, 0x20, 0x70,
   0xF0, 0x10, 0xF0, 0x80, 0xF0,
   0xF0, 0x10, 0xF0, 0x10, 0xF0,
   0x90, 0x90, 0xF0, 0x10, 0x10,
   0xF0, 0x80, 0xF0, 0x10, 0xF0,
   0xF0, 0x80, 0xF0, 0x90, 0xF0,
   0xF0, 0x10, 0x20, 0x40, 0x40,
   0xF0, 0x90, 0xF0, 0x90, 0xF0,
   0xF0, 0x90, 0xF0, 0x10, 0xF0,
   0xF0, 0x90, 0xF0, 0x90, 0x90,
   0xE0, 0x90, 0xE0, 0x90, 0xE0,
   0xF0, 0x80, 0x80, 0x80, 0xF0,
   0xE0, 0x90, 0x90, 0x90, 0xE0,
   0xF0, 0x80, 0xF0, 0x80, 0xF0,
   0xF0, 0x80, 0xF0, 0x80, 0x80]

/-- The state of the `Chip8` struct.  Field names follow the source. -/
structure Chip8 where
  draw_flag : Bool
  opcode : Nat
  memory : Nat → Nat
  reg : Nat → Nat
  index : Nat
  pc : Nat
  graphics : Nat → Bool
  timer_delay : Nat
  timer_sound : Nat
  stack : Nat → Nat
  sp : Nat
  key : Nat → Nat
  make_sound : Bool

/-- A fault: either the `panic!("Opcode {:#X} is bad", ...)` on an
unrecognised opcode (carrying the opcode value, which is all the
panic message reports), or an array index out of bounds. -/
inductive Fault where
  | badOpcode (w : Nat)
  | indexOutOfBounds
deriving DecidableEq

/-- Pointwise update of a `Nat`-valued array model. -/
def updf (f : Nat → Nat) (i v : Nat) : Nat → Nat :=
  fun j => if j = i then v else f j

/-- Pointwise update of a `Bool`-valued array model. -/
def updb (f : Nat → Bool) (i : Nat) (v : Bool) : Nat → Bool :=
  fun j => if j = i then v else f j

/-- Bounds-checked write to the 4096-byte memory
(`self.memory[i] = v`; an out-of-range index is a panic). -/
def wr8 (m : Nat → Nat) (i v : Nat) : Except Fault (Nat → Nat) :=
  if i < NMEM then .ok (updf m i v) else .error .indexOutOfBounds

/-- Constructor `Chip8::default()`: zeroed state, `pc = 0x200`, `draw_flag` set,
and the font set copied to memory bytes `0x000`-`0x04F`. -/
def Chip8.default : Chip8 where
  draw_flag := true
  opcode := 0
  memory := fun i => if i < 80 then FONTSET.getD i 0 else 0
  reg := fun _ => 0
  index := 0
  pc := 0x200
  graphics := fun _ => false
  timer_delay := 0
  timer_sound := 0
  stack := fun _ => 0
  sp := 0
  key := fun _ => 0
  make_sound := false

/-- The loop body of `Chip8::load`: write the bytes at offsets
`0x200 + i`, `0x200 + i + 1`, ...; an out-of-range write is a panic
(modelled as `none`). -/
def loadBytes (m : Nat → Nat) (i : Nat) : List Nat → Option (Nat → Nat)
  | [] => some m
  | b :: rest =>
    if 0x200 + i < NMEM then loadBytes (updf m (0x200 + i) b) (i + 1) rest
    else none

/-- Method `Chip8::load(game)`: copy the game bytes into memory starting at
offset `0x200`. -/
def load (game : List Nat) (s : Chip8) : Option Chip8 :=
  (loadBytes s.memory 0 game).map (fun m => { s with memory := m })

/-- The `X` register-index field of an opcode: `(w & 0x0F00) >> 8`. -/
def regX (w : Nat) : Nat := (w &&& 0x0F00) >>> 8

/-- The `Y` register-index field of an opcode: `(w & 0x00F0) >> 4`. -/
def regY (w : Nat) : Nat := (w &&& 0x00F0) >>> 4

/-- Method `fetch_opcode`: compose the two bytes at `pc`, `pc + 1`
big-endian.  Reading past the end of memory is a panic. -/
def fetch_opcode (s : Chip8) : Option Nat :=
  if s.pc + 1 < NMEM then some ((s.memory s.pc) <<< 8 ||| s.memory (s.pc + 1))
  else none

/-- One step of the `DXYN` inner loop over the 8 bits of a sprite row
(`j` ascending from 0; bit `j` of the row byte is the most significant
first).  `drawBits byte x ys k (g, vf)` processes bits `0..k-1` of the
row at screen row `ys`, XOR-blitting in-bounds pixels and recording a
collision in `vf`. -/
def drawBits (byte x ys : Nat) : Nat → ((Nat → Bool) × Nat) → ((Nat → Bool) × Nat)
  | 0, gv => gv
  | j + 1, gv =>
    let gv' := drawBits byte x ys j gv
    if x + j < 64 ∧ ys < 32 then
      let address := 64 * ys + (x + j)
      if (byte >>> (7 - j)) &&& 1 = 1 then
        (updb gv'.1 address (!(gv'.1 address)), if gv'.1 address then 1 else gv'.2)
      else gv'
    else gv'

/-- The `DXYN` outer loop: `drawRows m x y start n gv` processes sprite
rows `0..n-1`, reading row `r` from `memory[start + r]` (a panic when
out of range) and drawing it at screen row `y + r`. -/
def drawRows (m : Nat → Nat) (x y start : Nat) :
    Nat → ((Nat → Bool) × Nat) → Except Fault ((Nat → Bool) × Nat)
  | 0, gv => .ok gv
  | k + 1, gv =>
    match drawRows m x y start k gv with
    | .error e => .error e
    | .ok gv' =>
      if start + k < NMEM then .ok (drawBits (m (start + k)) x (y + k) 8 gv')
      else .error .indexOutOfBounds

/-- The `FX55` loop: store `reg[0..cnt-1]` to `memory[idx..]`. -/
def storeRegs (m : Nat → Nat) (rg : Nat → Nat) (idx : Nat) :
    Nat → Except Fault (Nat → Nat)
  | 0 => .ok m
  | k + 1 =>
    match storeRegs m rg idx k with
    | .error e => .error e
    | .ok m' => wr8 m' (idx + k) (rg k)

/-- The `FX65` loop: load `reg[0..cnt-1]` from `memory[idx..]`
(a read past the end of memory is a panic). -/
def loadRegs (rg : Nat → Nat) (m : Nat → Nat) (idx : Nat) :
    Nat → Except Fault (Nat → Nat)
  | 0 => .ok rg
  | k + 1 =>
    match loadRegs rg m idx k with
    | .error e => .error e
    | .ok rg' =>
      if idx + k < NMEM then .ok (updf rg' k (m (idx + k)))
      else .error .indexOutOfBounds

/-- Method `execute_opcode`: decode and run the current opcode `w`.  The
parameter `r` stands for the byte produced by the thread-local RNG in
the `CXNN` arm (`gen_range(0,255)`, i.e. a value in `[0, 255)`,
modelled as `r % 255`).  Every arm mirrors the corresponding `match`
arm of the source, including the statement order (flag writes before
operand reads in the `8XY`  arithmetic arms) and the
bounds-checked array accesses. -/
def execute_opcode (r w : Nat) (s : Chip8) : Except Fault Chip8 :=
  if w &&& 0xF000 = 0x0000 then
    if w = 0x00E0 then
      .ok { s with graphics := fun _ => false, draw_flag := true, pc := s.pc + 2 }
    else if w = 0x00EE then
      if s.sp = 0 then .error .indexOutOfBounds
      else .ok { s with sp := s.sp - 1, pc := (s.stack (s.sp - 1) + 2) % 65536 }
    else .error (.badOpcode w)
  else if w &&& 0xF000 = 0x1000 then
    .ok { s with pc := w &&& 0x0FFF }
  else if w &&& 0xF000 = 0x2000 then
    if s.sp < 16 then
      .ok { s with stack := updf s.stack s.sp s.pc, sp := s.sp + 1, pc := w &&& 0x0FFF }
    else .error .indexOutOfBounds
  else if w &&& 0xF000 = 0x3000 then
    .ok { s with pc := (if s.reg (regX w) = w &&& 0x00FF then s.pc + 2 else s.pc) + 2 }
  else if w &&& 0xF000 = 0x4000 then
    .ok { s with pc := (if s.reg (regX w) ≠ w &&& 0x00FF then s.pc + 2 else s.pc) + 2 }
  else if w &&& 0xF000 = 0x5000 then
    .ok { s with pc := (if s.reg (regX w) = s.reg (regY w) then s.pc + 2 else s.pc) + 2 }
  else if w &&& 0xF000 = 0x6000 then
    .ok { s with reg := updf s.reg (regX w) (w &&& 0x00FF), pc := s.pc + 2 }
  else if w &&& 0xF000 = 0x7000 then
    .ok { s with reg := updf s.reg (regX w) ((s.reg (regX w) + (w &&& 0x00FF)) % 256),
                 pc := s.pc + 2 }
  else if w &&& 0xF000 = 0x8000 then
    if w &&& 0x000F = 0x0000 then
      .ok { s with reg := updf s.reg (regX w) (s.reg (regY w)), pc := s.pc + 2 }
    else if w &&& 0x000F = 0x0001 then
      .ok { s with reg := updf s.reg (regX w) (s.reg (regX w) ||| s.reg (regY w)),
                   pc := s.pc + 2 }
    else if w &&& 0x000F = 0x0002 then
      .ok { s with reg := updf s.reg (regX w) (s.reg (regX w) &&& s.reg (regY w)),
                   pc := s.pc + 2 }
    else if w &&& 0x000F = 0x0003 then
      .ok { s with reg := updf s.reg (regX w) (s.reg (regX w) ^^^ s.reg (regY w)),
                   pc := s.pc + 2 }
    else if w &&& 0x000F = 0x0004 then
      let r1 := updf s.reg 15 (if 0xFF - s.reg (regX w) < s.reg (regY w) then 1 else 0)
      .ok { s with reg := updf r1 (regX w) ((r1 (regX w) + r1 (regY w)) % 256),
                   pc := s.pc + 2 }
    else if w &&& 0x000F = 0x0005 then
      let r1 := updf s.reg 15 (if s.reg (regX w) < s.reg (regY w) then 0 else 1)
      .ok { s with reg := updf r1 (regX w) ((r1 (regX w) + 256 - r1 (regY w)) % 256),
                   pc := s.pc + 2 }
    else if w &&& 0x000F = 0x0006 then
      let r1 := updf s.reg 15 (s.reg (regX w) &&& 0x0001)
      .ok { s with reg := updf r1 (regX w) (r1 (regX w) >>> 1), pc := s.pc + 2 }
    else if w &&& 0x000F = 0x0007 then
      let r1 := updf s.reg 15 (if s.reg (regY w) < s.reg (regX w) then 0 else 1)
      .ok { s with reg := updf r1 (regX w) ((r1 (regY w) + 256 - r1 (regX w)) % 256),
                   pc := s.pc + 2 }
    else if w &&& 0x000F = 0x000E then
      let r1 := updf s.reg 15 ((s.reg (regX w) &&& 0x80) >>> 7)
      .ok { s with reg := updf r1 (regX w) ((r1 (regX w) <<< 1) % 256), pc := s.pc + 2 }
    else .error (.badOpcode w)
  else if w &&& 0xF000 = 0x9000 then
    .ok { s with pc := (if s.reg (regX w) ≠ s.reg (regY w) then s.pc + 2 else s.pc) + 2 }
  else if w &&& 0xF000 = 0xA000 then
    .ok { s with index := w &&& 0x0FFF, pc := s.pc + 2 }
  else if w &&& 0xF000 = 0xB000 then
    .ok { s with pc := (w &&& 0x0FFF) + s.reg 0 }
  else if w &&& 0xF000 = 0xC000 then
    .ok { s with reg := updf s.reg (regX w) ((w &&& 0x00FF) &&& (r % 255)),
                 pc := s.pc + 2 }
  else if w &&& 0xF000 = 0xD000 then
    match drawRows s.memory (s.reg (regX w)) (s.reg (regY w)) s.index
        (w &&& 0x000F) (s.graphics, 0) with
    | .ok gv =>
      .ok { s with graphics := gv.1, reg := updf s.reg 15 gv.2,
                   draw_flag := true, pc := s.pc + 2 }
    | .error e => .error e
  else if w &&& 0xF000 = 0xE000 then
    if w &&& 0x00FF = 0x009E then
      if s.reg (regX w) < 16 then
        .ok { s with pc := (if s.key (s.reg (regX w)) ≠ 0 then s.pc + 2 else s.pc) + 2 }
      else .error .indexOutOfBounds
    else if w &&& 0x00FF = 0x00A1 then
      if s.reg (regX w) < 16 then
        .ok { s with pc := (if s.key (s.reg (regX w)) = 0 then s.pc + 2 else s.pc) + 2 }
      else .error .indexOutOfBounds
    else .error (.badOpcode w)
  else if w &&& 0xF000 = 0xF000 then
    if w &&& 0x00FF = 0x0007 then
      .ok { s with reg := updf s.reg (regX w) s.timer_delay, pc := s.pc + 2 }
    else if w &&& 0x00FF = 0x000A then
      match (List.range 0xF).find? (fun k => s.key k != 0) with
      | some k => .ok { s with reg := updf s.reg (regX w) k, pc := s.pc + 2 }
      | none => .ok s
    else if w &&& 0x00FF = 0x0015 then
      .ok { s with timer_delay := s.reg (regX w), pc := s.pc + 2 }
    else if w &&& 0x00FF = 0x0018 then
      .ok { s with timer_sound := s.reg (regX w), pc := s.pc + 2 }
    else if w &&& 0x00FF = 0x001E then
      .ok { s with index := (s.index + s.reg (regX w)) % 65536, pc := s.pc + 2 }
    else if w &&& 0x00FF = 0x0029 then
      .ok { s with index := 5 * s.reg (regX w), pc := s.pc + 2 }
    else if w &&& 0x00FF = 0x0033 then
      match wr8 s.memory s.index (s.reg (regX w) / 100) with
      | .error e => .error e
      | .ok m1 =>
        match wr8 m1 (s.index + 1) ((s.reg (regX w) / 10) % 10) with
        | .error e => .error e
        | .ok m2 =>
          match wr8 m2 (s.index + 2) ((s.reg (regX w) % 100) % 10) with
          | .error e => .error e
          | .ok m3 => .ok { s with memory := m3, pc := s.pc + 2 }
    else if w &&& 0x00FF = 0x0055 then
      match storeRegs s.memory s.reg s.index (regX w + 1) with
      | .ok m => .ok { s with memory := m, pc := s.pc + 2 }
      | .error e => .error e
    else if w &&& 0x00FF = 0x0065 then
      match loadRegs s.reg s.memory s.index (regX w + 1) with
      | .ok rg => .ok { s with reg := rg, pc := s.pc + 2 }
      | .error e => .error e
    else .error (.badOpcode w)
  else .error (.badOpcode w)

/-- Method `update_timers`: decrement `delay` and `sound` while positive;
`make_sound` is reset every call and raised exactly on the sound
timer's 1-to-0 transition. -/
def update_timers (s : Chip8) : Chip8 :=
  if 0 < s.timer_sound then
    { s with timer_delay := if 0 < s.timer_delay then s.timer_delay - 1 else s.timer_delay,
             make_sound := s.timer_sound == 1,
             timer_sound := s.timer_sound - 1 }
  else
    { s with timer_delay := if 0 < s.timer_delay then s.timer_delay - 1 else s.timer_delay,
             make_sound := false }

/-- The fetch-then-execute part of a cycle (everything before the
timer update).  Fetching stores the opcode in the state, as the source
does. -/
def fetch_execute (r : Nat) (s : Chip8) : Except Fault Chip8 :=
  match fetch_opcode s with
  | none => .error .indexOutOfBounds
  | some w => execute_opcode r w { s with opcode := w }

/-- Method `emulate_cycle`: fetch, decode/execute, then update the timers. -/
def emulate_cycle (r : Nat) (s : Chip8) : Except Fault Chip8 :=
  (fetch_execute r s).map update_timers

/-- The opcode patterns rejected by `execute_opcode`'s `match`
defaults (`panic!("Opcode {:#X} is bad", ...)`). -/
def isIllegal (w : Nat) : Bool :=
  if w &&& 0xF000 = 0x0000 then
    !(decide (w = 0x00E0) || decide (w = 0x00EE))
  else if w &&& 0xF000 = 0x1000 then false
  else if w &&& 0xF000 = 0x2000 then false
  else if w &&& 0xF000 = 0x3000 then false
  else if w &&& 0xF000 = 0x4000 then false
  else if w &&& 0xF000 = 0x5000 then false
  else if w &&& 0xF000 = 0x6000 then false
  else if w &&& 0xF000 = 0x7000 then false
  else if w &&& 0xF000 = 0x8000 then
    !(decide (w &&& 0x000F = 0x0000) || decide (w &&& 0x000F = 0x0001) ||
      decide (w &&& 0x000F = 0x0002) || decide (w &&& 0x000F = 0x0003) ||
      decide (w &&& 0x000F = 0x0004) || decide (w &&& 0x000F = 0x0005) ||
      decide (w &&& 0x000F = 0x0006) || decide (w &&& 0x000F = 0x0007) ||
      decide (w &&& 0x000F = 0x000E))
  else if w &&& 0xF000 = 0x9000 then false
  else if w &&& 0xF000 = 0xA000 then false
  else if w &&& 0xF000 = 0xB000 then false
  else if w &&& 0xF000 = 0xC000 then false
  else if w &&& 0xF000 = 0xD000 then false
  else if w &&& 0xF000 = 0xE000 then
    !(decide (w &&& 0x00FF = 0x009E) || decide (w &&& 0x00FF = 0x00A1))
  else if w &&& 0xF000 = 0xF000 then
    !(decide (w &&& 0x00FF = 0x0007) || decide (w &&& 0x00FF = 0x000A) ||
      decide (w &&& 0x00FF = 0x0015) || decide (w &&& 0x00FF = 0x0018) ||
      decide (w &&& 0x00FF = 0x001E) || decide (w &&& 0x00FF = 0x0029) ||
      decide (w &&& 0x00FF = 0x0033) || decide (w &&& 0x00FF = 0x0055) ||
      decide (w &&& 0x00FF = 0x0065) )
  else true

instance exceptDecEq {ε α : Type} [DecidableEq ε] [DecidableEq α] :
    DecidableEq (Except ε α)
  | .error e, .error f =>
    if h : e = f then .isTrue (by rw [h])
    else .isFalse (by intro hc; injection hc; contradiction)
  | .error _, .ok _ => .isFalse (by intro hc; exact Except.noConfusion hc)
  | .ok _, .error _ => .isFalse (by intro hc; exact Except.noConfusion hc)
  | .ok a, .ok b =>
    if h : a = b then .isTrue (by rw [h])
    else .isFalse (by intro hc; injection hc; contradiction)

/-- Projection of a cycle result onto the fault, for statements about
faulting runs (`Chip8` itself has no decidable equality). -/
def faultOf (e : Except Fault Chip8) : Option Fault :=
  match e with
  | .error f => some f
  | .ok _ => none

/-- A zeroed machine used to build concrete test states: like
`Chip8.default` but with an all-zero memory (no font). -/
def zeroChip : Chip8 where
  draw_flag := true
  opcode := 0
  memory := fun _ => 0
  reg := fun _ => 0
  index := 0
  pc := 0x200
  graphics := fun _ => false
  timer_delay := 0
  timer_sound := 0
  stack := fun _ => 0
  sp := 0
  key := fun _ => 0
  make_sound := false

/-- A memory image holding `bytes` at `0x200` and zero elsewhere. -/
def mkMem (bytes : List Nat) : Nat → Nat :=
  fun a => if 0x200 ≤ a ∧ a < 0x200 + bytes.length then bytes.getD (a - 0x200) 0 else 0

/-- The machine used to exhibit the `FX0A` defect: the fetched opcode
is `0xF10A` and exactly one key — key `0xF` — is pressed. -/
def sC1 : Chip8 :=
  { zeroChip with memory := mkMem [0xF1, 0x0A], key := fun k => if k = 15 then 1 else 0 }

/-- The state used to witness C9: `reg[0] = 0xAB`, `reg[1] = 0xCD`,
`index = 10`. -/
def sC9 : Chip8 :=
  { zeroChip with reg := fun i => if i = 0 then 0xAB else if i = 1 then 0xCD else 0,
                  index := 10 }

/-- State refuting C2 as stated: about to execute `8XY4` with
`X = 0`, `Y = 0xF`, `reg[0] = 0`, `reg[0xF] = 5`. -/
def sC2 : Chip8 :=
  { zeroChip with memory := mkMem [0x80, 0xF4], reg := fun i => if i = 15 then 5 else 0 }

/-- State witnessing the amended C2: `8AB4` with `reg[A] = 0xFF`,
`reg[B] = 1` (the overflowing case from the source's own test). -/
def sC2w : Chip8 :=
  { zeroChip with memory := mkMem [0x8A, 0xB4],
                  reg := fun i => if i = 0xA then 0xFF else if i = 0xB then 1 else 0 }

/-- Two machines about to fetch the same undecodable opcode `0x0123`
at different program counters (`0x200` and `0x204`). -/
def sC6a : Chip8 :=
  { zeroChip with memory := mkMem [0x01, 0x23, 0x00, 0x00, 0x01, 0x23] }

/-- Companion state to `sC6a` with the program counter moved. -/
def sC6b : Chip8 := { sC6a with pc := 0x204 }

/-- State about to fetch `0x5121`: an opcode that matches no row of
the spec's instruction table (the table's `5XY0` row has a literal
trailing 0) but that the decoder nevertheless executes as a `5XY0`
skip, since it dispatches on the family nibble alone. -/
def sC6c : Chip8 := { zeroChip with memory := mkMem [0x51, 0x21] }

/-- State refuting C7 as stated: about to execute `FX0A` (which is
not a jump, call, return, or skip) with no key pressed. -/
def sC7 : Chip8 := { zeroChip with memory := mkMem [0xF1, 0x0A] }

/-- State witnessing the amended C7: about to execute `00E0`. -/
def sC7w : Chip8 := { zeroChip with memory := mkMem [0x00, 0xE0] }

/-- State witnessing the amended C4: about to execute `6105`
(`reg[1] := 5`), which never writes memory. -/
def sC4w : Chip8 := { zeroChip with memory := mkMem [0x61, 0x05] }

/-- Sprite bit `j` (MSB first) of a row byte is set and its target
pixel is on screen. -/
def hitJ (byte x ys j : Nat) : Prop :=
  (byte >>> (7 - j)) &&& 1 = 1 ∧ x + j < 64 ∧ ys < 32

instance (byte x ys j : Nat) : Decidable (hitJ byte x ys j) := by
  unfold hitJ; infer_instance

/-- Framebuffer address of sprite bit `j` of the row at screen row
`ys` for a sprite drawn at column `x`. -/
def pixAddr (x ys j : Nat) : Nat := 64 * ys + (x + j)

/-- Some in-bounds set sprite bit of the `n`-row sprite at
`memory[start..]`, drawn at `(x, y)`, targets address `a`. -/
def spriteHit (m : Nat → Nat) (x y start n : Nat) (a : Nat) : Prop :=
  ∃ row, row < n ∧ ∃ j, j < 8 ∧ hitJ (m (start + row)) x (y + row) j ∧
    a = pixAddr x (y + row) j

instance (m : Nat → Nat) (x y start n a : Nat) : Decidable (spriteHit m x y start n a) := by
  unfold spriteHit; infer_instance

/-- Some in-bounds set sprite bit targets a pixel lit in `g` (the
draw's collision condition). -/
def spriteColl (m : Nat → Nat) (g : Nat → Bool) (x y start n : Nat) : Prop :=
  ∃ row, row < n ∧ ∃ j, j < 8 ∧ hitJ (m (start + row)) x (y + row) j ∧
    g (pixAddr x (y + row) j) = true

instance (m : Nat → Nat) (g : Nat → Bool) (x y start n : Nat) :
    Decidable (spriteColl m g x y start n) := by
  unfold spriteColl; infer_instance

/-- State refuting C5 as stated: `D000` (a zero-row sprite) executed
twice in a row. -/
def sC5 : Chip8 := { zeroChip with memory := mkMem [0xD0, 0x00, 0xD0, 0x00] }

/-- State witnessing the amended C5: `D001` twice with `index = 0`
and sprite row byte `0x80` at address 0 — one visible pixel at
`(0,0)`. -/
def sC5w : Chip8 :=
  { zeroChip with memory := (fun a =>
      if a = 0x200 then 0xD0 else if a = 0x201 then 0x01 else
      if a = 0x202 then 0xD0 else if a = 0x203 then 0x01 else
      if a = 0 then 0x80 else 0) }

/-! ## Helper lemmas -/

theorem updf_same (f : Nat → Nat) (i v : Nat) : updf f i v i = v := by
  simp [updf]

theorem updf_other (f : Nat → Nat) (i v j : Nat) (h : j ≠ i) : updf f i v j = f j := by
  simp [updf, h]

theorem update_timers_pc (s : Chip8) : (update_timers s).pc = s.pc := by
  unfold update_timers; split <;> rfl

theorem update_timers_memory (s : Chip8) : (update_timers s).memory = s.memory := by
  unfold update_timers; split <;> rfl

theorem update_timers_reg (s : Chip8) : (update_timers s).reg = s.reg := by
  unfold update_timers; split <;> rfl

theorem update_timers_graphics (s : Chip8) : (update_timers s).graphics = s.graphics := by
  unfold update_timers; split <;> rfl

theorem update_timers_draw_flag (s : Chip8) : (update_timers s).draw_flag = s.draw_flag := by
  unfold update_timers; split <;> rfl

theorem update_timers_index (s : Chip8) : (update_timers s).index = s.index := by
  unfold update_timers; split <;> rfl

theorem update_timers_key (s : Chip8) : (update_timers s).key = s.key := by
  unfold update_timers; split <;> rfl

theorem update_timers_make_sound (s : Chip8) :
    (update_timers s).make_sound = (s.timer_sound == 1) := by
  unfold update_timers
  split
  · rfl
  · rename_i h
    have h0 : s.timer_sound = 0 := by omega
    rw [h0]; rfl

theorem cycle_eq (r : Nat) (s : Chip8) (w : Nat) (hf : fetch_opcode s = some w) :
    emulate_cycle r s =
      (execute_opcode r w { s with opcode := w }).map update_timers := by
  unfold emulate_cycle fetch_execute
  rw [hf]

theorem cycle_ok (r : Nat) (s s' : Chip8) (w : Nat) (hf : fetch_opcode s = some w)
    (h : emulate_cycle r s = .ok s') :
    ∃ t, execute_opcode r w { s with opcode := w } = .ok t ∧ s' = update_timers t := by
  rw [cycle_eq r s w hf] at h
  cases hx : execute_opcode r w { s with opcode := w } with
  | error e => rw [hx] at h; exact absurd h (by simp [Except.map])
  | ok t =>
    rw [hx] at h
    simp only [Except.map] at h
    exact ⟨t, rfl, (Except.ok.injEq _ _).mp h |>.symm⟩

theorem loadBytes_ok (game : List Nat) : ∀ (m : Nat → Nat) (i : Nat),
    0x200 + i + game.length ≤ 4096 →
    loadBytes m i game = some (fun a =>
      if 0x200 + i ≤ a ∧ a < 0x200 + i + game.length
      then game.getD (a - (0x200 + i)) 0 else m a) := by
  induction game with
  | nil =>
    intro m i _
    unfold loadBytes
    congr 1
    funext a
    rw [if_neg (by simp only [List.length_nil]; omega)]
  | cons b rest ih =>
    intro m i h
    unfold loadBytes
    rw [if_pos (by simp only [NMEM, List.length_cons] at h ⊢; omega)]
    rw [ih (updf m (0x200 + i) b) (i + 1) (by simp at h ⊢; omega)]
    congr 1
    funext a
    by_cases h1 : 0x200 + (i + 1) ≤ a ∧ a < 0x200 + (i + 1) + rest.length
    · rw [if_pos h1, if_pos (by simp; omega)]
      have h2 : a - (0x200 + i) = (a - (0x200 + (i + 1))) + 1 := by omega
      rw [h2, List.getD_cons_succ]
    · rw [if_neg h1]
      by_cases h3 : a = 0x200 + i
      · rw [if_pos (by simp; omega)]
        unfold updf
        rw [if_pos h3]
        have h4 : a - (0x200 + i) = 0 := by omega
        rw [h4, List.getD_cons_zero]
      · rw [if_neg (by simp; omega)]
        exact updf_other m (0x200 + i) b a h3

theorem loadBytes_none (game : List Nat) : ∀ (m : Nat → Nat) (i : Nat),
    0 < game.length → 4096 < 0x200 + i + game.length →
    loadBytes m i game = none := by
  induction game with
  | nil => intro m i h _; simp at h
  | cons b rest ih =>
    intro m i _ h2
    unfold loadBytes
    by_cases hc : 0x200 + i < NMEM
    · rw [if_pos hc]
      simp only [NMEM] at hc
      simp only [List.length_cons] at h2
      exact ih _ (i + 1) (by omega) (by omega)
    · rw [if_neg hc]

/-! ## Claim C3 -/

/-- Claim C3: `load(bytes)` fails exactly when
`bytes.length > 4096 - 0x200 = 3584` (in the source the failure is the
out-of-bounds write panic), and otherwise succeeds, copying the bytes
into memory starting at offset `0x200` and leaving everything else
unchanged. -/
theorem c3_load_capacity (game : List Nat) (s : Chip8) :
    (3584 < game.length → load game s = none) ∧
    (game.length ≤ 3584 →
      load game s = some { s with memory := (fun a =>
        if 0x200 ≤ a ∧ a < 0x200 + game.length then game.getD (a - 0x200) 0
        else s.memory a) }) := by
  constructor
  · intro h
    unfold load
    rw [loadBytes_none game s.memory 0 (by omega) (by omega)]
    rfl
  · intro h
    unfold load
    rw [loadBytes_ok game s.memory 0 (by omega)]
    simp only [Option.map]

/-- Witness for C3: a 3585-byte image is rejected, a 2-byte image is
loaded at `0x200`. -/
theorem c3_load_capacity_witness :
    (3584 < (List.replicate 3585 7).length ∧
      load (List.replicate 3585 7) zeroChip = none) ∧
    (([9, 9] : List Nat).length ≤ 3584 ∧
      (load [9, 9] zeroChip).map (fun t => t.memory 0x201) = some 9) := by
  have hlen : (List.replicate 3585 7).length = 3585 := List.length_replicate 3585 7
  refine ⟨⟨by rw [hlen]; omega, (c3_load_capacity (List.replicate 3585 7) zeroChip).1 (by rw [hlen]; omega)⟩,
          by decide, ?_⟩
  rw [(c3_load_capacity [9, 9] zeroChip).2 (by decide)]
  decide

/-! ## Claim C10 -/

/-- Claim C10: at machine construction the redraw-needed flag is
already `true`, and the framebuffer is all-unlit, so a host polling
the flag will render the initial blank screen. -/
theorem c10_initial_draw_flag :
    Chip8.default.draw_flag = true ∧ ∀ a, Chip8.default.graphics a = false :=
  ⟨rfl, fun _ => rfl⟩

/-! ## Claim C8 -/

/-- Claim C8: after every (non-faulting) step, `make_sound` is raised
if and only if the sound timer's value immediately before that step's
timer tick — i.e. after the fetch/execute phase `fetch_execute` and
before `update_timers` — was exactly 1.  In particular it is never
raised when that value is 0 or greater than 1, and it cannot stay
raised across a later step without a fresh 1-to-0 transition, because
every step recomputes it this way. -/
theorem c8_sound_edge (r : Nat) (s : Chip8) :
    (emulate_cycle r s).map (fun t => t.make_sound) =
      (fetch_execute r s).map (fun m => m.timer_sound == 1) := by
  unfold emulate_cycle
  cases h : fetch_execute r s with
  | error e => rfl
  | ok m =>
    simp only [Except.map]
    rw [update_timers_make_sound]

/-! ## Claim C1 -/

/-- Claim C1 (code-bug exhibit): `FX0A` is specified to complete as
soon as any key `0x0`-`0xF` is pressed, storing the lowest-numbered
pressed key.  The source loop `for k in 0..0xF` never examines key
`0xF`, so with only key `0xF` pressed the step leaves the program
counter (and `reg[X]`) unchanged and the machine waits forever. -/
theorem c1_fx0a_ignores_key_f :
    fetch_opcode sC1 = some 0xF10A ∧
    sC1.key 15 ≠ 0 ∧ (∀ k < 15, sC1.key k = 0) ∧ sC1.pc = 0x200 ∧
    (emulate_cycle 0 sC1).map (fun t => (t.pc, t.reg 1)) = .ok (0x200, 0) := by
  decide

theorem storeRegs_ok (rg : Nat → Nat) (idx : Nat) : ∀ (cnt : Nat) (m : Nat → Nat),
    (∀ k, k < cnt → idx + k < 4096) →
    storeRegs m rg idx cnt = .ok (fun a =>
      if idx ≤ a ∧ a < idx + cnt then rg (a - idx) else m a) := by
  intro cnt
  induction cnt with
  | zero =>
    intro m _
    unfold storeRegs
    congr 1
    funext a
    rw [if_neg (by omega)]
  | succ k ih =>
    intro m h
    unfold storeRegs
    rw [ih m (fun k2 hk2 => h k2 (by omega))]
    dsimp only
    unfold wr8
    rw [if_pos (by simp only [NMEM]; exact h k (by omega))]
    congr 1
    funext a
    unfold updf
    dsimp only
    by_cases ha : a = idx + k
    · rw [if_pos ha, if_pos (by omega)]
      have hk : a - idx = k := by omega
      rw [hk]
    · rw [if_neg ha]
      by_cases hin : idx ≤ a ∧ a < idx + k
      · rw [if_pos hin, if_pos (by omega)]
      · rw [if_neg hin, if_neg (by omega)]

theorem loadRegs_ok (m : Nat → Nat) (idx : Nat) : ∀ (cnt : Nat) (rg : Nat → Nat),
    (∀ k, k < cnt → idx + k < 4096) →
    loadRegs rg m idx cnt = .ok (fun i =>
      if i < cnt then m (idx + i) else rg i) := by
  intro cnt
  induction cnt with
  | zero =>
    intro rg _
    unfold loadRegs
    have he : (fun i => if i < 0 then m (idx + i) else rg i) = rg := by
      funext i
      rw [if_neg (by omega)]
    rw [he]
  | succ k ih =>
    intro rg h
    unfold loadRegs
    rw [ih rg (fun k2 hk2 => h k2 (by omega))]
    dsimp only
    rw [if_pos (by simp only [NMEM]; exact h k (by omega))]
    congr 1
    funext i
    unfold updf
    dsimp only
    by_cases hi : i = k
    · rw [if_pos hi, if_pos (by omega), hi]
    · rw [if_neg hi]
      by_cases hik : i < k
      · rw [if_pos hik, if_pos (by omega)]
      · rw [if_neg hik, if_neg (by omega)]

/-! ## Claim C9 -/

/-- Claim C9: for every `X` field and every `index` with
`index + X < 4096`, executing an `FX55` opcode and then an `FX65`
opcode with the same `X` and the same index value leaves
`reg[0..=X]` equal to their values before the pair (store-then-load
round trip).  Stated at the `execute_opcode` level, which is what
"executing FX55 and then FX65" denotes; neither instruction touches
`index`, so the second one reads back exactly the bytes the first one
wrote. -/
theorem c9_store_load_roundtrip (r1 r2 : Nat) (w1 w2 : Nat) (s : Chip8)
    (h1f : w1 &&& 0xF000 = 0xF000) (h1s : w1 &&& 0x00FF = 0x0055)
    (h2f : w2 &&& 0xF000 = 0xF000) (h2s : w2 &&& 0x00FF = 0x0065)
    (hxy : regX w2 = regX w1)
    (hidx : s.index + regX w1 < 4096) :
    ((execute_opcode r1 w1 s).bind (execute_opcode r2 w2)).map
      (fun t => (List.range (regX w1 + 1)).map t.reg) =
    .ok ((List.range (regX w1 + 1)).map s.reg) := by
  have hst := storeRegs_ok s.reg s.index (regX w1 + 1) s.memory (fun k hk => by omega)
  simp only [execute_opcode, h1f, h1s]
  norm_num
  rw [hst]
  dsimp only
  simp only [Except.bind]
  simp only [execute_opcode, h2f, h2s]
  norm_num
  rw [hxy]
  rw [loadRegs_ok _ s.index (regX w1 + 1) s.reg (fun k hk => by omega)]
  dsimp only [Except.map]
  congr 1
  refine List.map_congr_left ?_
  intro i hi
  rw [List.mem_range] at hi
  rw [if_pos hi, if_pos (by omega)]
  have hd : s.index + i - s.index = i := by omega
  rw [hd]

/-- Witness for C9 at `X = 1`: storing `reg[0..=1]` at 10 and loading
back restores `[0xAB, 0xCD]`. -/
theorem c9_store_load_roundtrip_witness :
    ((execute_opcode 0 0xF155 sC9).bind (execute_opcode 0 0xF165)).map
      (fun t => (List.range (regX 0xF155 + 1)).map t.reg) =
    .ok ((List.range (regX 0xF155 + 1)).map sC9.reg) :=
  c9_store_load_roundtrip 0 0 0xF155 0xF165 sC9 (by decide) (by decide)
    (by decide) (by decide) (by decide) (by decide)

/-! ## Claim C2 -/

/-- Counterexample to C2 as stated.  With `Y = 0xF` the source writes
the carry flag into `reg[0xF]` before reading the addends, so the
pre-instruction sum `0 + 5 = 5` (no carry, claim demands
`reg[X] = 5` and `reg[F] = 0`) ends up as `reg[0] = 0`: the flag
write clobbers the `Y` operand. -/
theorem c2_add_carry_cex :
    fetch_opcode sC2 = some 0x80F4 ∧ regX 0x80F4 = 0 ∧ regY 0x80F4 = 15 ∧
    sC2.reg 0 + sC2.reg 15 ≤ 0xFF ∧ (sC2.reg 0 + sC2.reg 15) % 256 = 5 ∧
    (emulate_cycle 0 sC2).map (fun t => (t.reg 0, t.reg 15)) = .ok (0, 0) := by
  decide

/-- Claim C2 (amended): for every machine state about to execute an
`8XY4` opcode whose register fields satisfy `X ≠ 0xF` and `Y ≠ 0xF`
(with 8-bit register contents), after the step `reg[F]` is 1 exactly
when the pre-instruction `reg[X] + reg[Y]` exceeds `0xFF`, and
`reg[X]` is the pre-instruction sum reduced modulo 256.  (When `X` or
`Y` is `0xF` the flag write aliases an operand or the destination,
and the claim fails — see the counterexample.) -/
theorem c2_add_carry (r : Nat) (s : Chip8) (w : Nat)
    (hf : fetch_opcode s = some w)
    (hfam : w &&& 0xF000 = 0x8000) (hsub : w &&& 0x000F = 0x0004)
    (hx : regX w ≠ 15) (hy : regY w ≠ 15)
    (hbx : s.reg (regX w) < 256) (hby : s.reg (regY w) < 256) :
    (emulate_cycle r s).map (fun t => (t.reg 15, t.reg (regX w))) =
      .ok ((if 0xFF < s.reg (regX w) + s.reg (regY w) then 1 else 0),
           (s.reg (regX w) + s.reg (regY w)) % 256) := by
  rw [cycle_eq r s w hf]
  simp only [execute_opcode, hfam, hsub]
  norm_num
  simp only [Except.map]
  rw [update_timers_reg]
  have hx2 : ¬(15 = regX w) := Ne.symm hx
  have hy2 : ¬(regY w = 15) := hy
  have hx1 : ¬(regX w = 15) := hx
  simp only [updf, if_pos rfl, hx2, hy2, hx1, if_neg, if_false, if_true]
  have hiff : (0xFF - s.reg (regX w) < s.reg (regY w)) ↔
      (0xFF < s.reg (regX w) + s.reg (regY w)) := by omega
  simp only [hiff]

/-- Witness for the amended C2: `0xFF + 0x01` gives `reg[A] = 0`,
`reg[F] = 1`. -/
theorem c2_add_carry_witness :
    (emulate_cycle 0 sC2w).map (fun t => (t.reg 15, t.reg (regX 0x8AB4))) =
      .ok ((if 0xFF < sC2w.reg (regX 0x8AB4) + sC2w.reg (regY 0x8AB4) then 1 else 0),
           (sC2w.reg (regX 0x8AB4) + sC2w.reg (regY 0x8AB4)) % 256) :=
  c2_add_carry 0 sC2w 0x8AB4 (by decide) (by decide) (by decide) (by decide)
    (by decide) (by decide) (by decide)

/-! ## Claim C6 -/

/-- Counterexample to C6 as stated, on both counts.  First, the fault
does not surface the program counter: the source panic is
`panic!("Opcode {:#X} is bad", self.opcode)`, so two states fetching
the same bad opcode at different program counters produce identical
faults, and the program counter cannot be recovered from what is
surfaced.  Second, the fault does not cover every opcode that matches
no row of the instruction table: `0x5121` matches no row (the `5XY0`
row ends in a literal 0, and `0x5121` has low nibble 1), yet the step
does not fault — the decoder dispatches on the family nibble alone
and executes it as the `5XY0` skip, advancing the program counter. -/
theorem c6_illegal_opcode_cex :
    (fetch_opcode sC6a = some 0x0123 ∧ fetch_opcode sC6b = some 0x0123 ∧
     sC6a.pc ≠ sC6b.pc ∧
     faultOf (emulate_cycle 0 sC6a) = some (.badOpcode 0x0123) ∧
     faultOf (emulate_cycle 0 sC6a) = faultOf (emulate_cycle 0 sC6b)) ∧
    (fetch_opcode sC6c = some 0x5121 ∧ 0x5121 &&& 0xF000 = 0x5000 ∧
     0x5121 &&& 0x000F = 1 ∧
     (emulate_cycle 0 sC6c).map (fun t => t.pc) = .ok 0x204) := by
  decide

/-- Claim C6 (amended): for every fetched 16-bit opcode that the
decoder rejects — a family-`0x0` opcode other than `00E0`/`00EE`, a
family-`0x8` opcode whose low nibble is not `0`-`7` or `E`, a
family-`0xE` opcode whose low byte is not `9E`/`A1`, or a
family-`0xF` opcode whose low byte is not one of
`07`/`0A`/`15`/`18`/`1E`/`29`/`33`/`55`/`65` (`isIllegal`) — the step
halts execution as a fatal fault that surfaces the literal
undecodable opcode value (but not the program counter), and the
machine makes no further progress.  This reject set is strictly
smaller than "matches no row of the instruction table": the decoder
dispatches families `0x5` and `0x9` on the family nibble alone, so
opcodes such as `5XY1`-`5XYF` and `9XY1`-`9XYF`, which match no table
row, are not faulted but executed as the family's skip instruction —
the second and third conjuncts prove they are outside the reject set
and complete as skips. -/
theorem c6_illegal_opcode :
    (∀ (r : Nat) (s : Chip8) (w : Nat), fetch_opcode s = some w → isIllegal w = true →
      emulate_cycle r s = .error (.badOpcode w)) ∧
    (∀ (r : Nat) (s : Chip8) (w : Nat), fetch_opcode s = some w → w &&& 0xF000 = 0x5000 →
      isIllegal w = false ∧
      (emulate_cycle r s).map (fun t => t.pc) =
        .ok ((if s.reg (regX w) = s.reg (regY w) then s.pc + 2 else s.pc) + 2)) ∧
    (∀ (r : Nat) (s : Chip8) (w : Nat), fetch_opcode s = some w → w &&& 0xF000 = 0x9000 →
      isIllegal w = false ∧
      (emulate_cycle r s).map (fun t => t.pc) =
        .ok ((if s.reg (regX w) ≠ s.reg (regY w) then s.pc + 2 else s.pc) + 2)) := by
  refine ⟨?_, ?_, ?_⟩
  · intro r s w hf hbad
    rw [cycle_eq r s w hf]
    have hexec : execute_opcode r w { s with opcode := w } = .error (.badOpcode w) := by
      by_cases h0 : w &&& 0xF000 = 0x0000
      · simp only [isIllegal, h0] at hbad
        norm_num at hbad
        simp only [execute_opcode, h0]
        norm_num
        rw [if_neg hbad.1, if_neg hbad.2]
      by_cases h1 : w &&& 0xF000 = 0x1000
      · simp only [isIllegal, h1] at hbad
        norm_num at hbad
      by_cases h2 : w &&& 0xF000 = 0x2000
      · simp only [isIllegal, h2] at hbad
        norm_num at hbad
      by_cases h3 : w &&& 0xF000 = 0x3000
      · simp only [isIllegal, h3] at hbad
        norm_num at hbad
      by_cases h4 : w &&& 0xF000 = 0x4000
      · simp only [isIllegal, h4] at hbad
        norm_num at hbad
      by_cases h5 : w &&& 0xF000 = 0x5000
      · simp only [isIllegal, h5] at hbad
        norm_num at hbad
      by_cases h6 : w &&& 0xF000 = 0x6000
      · simp only [isIllegal, h6] at hbad
        norm_num at hbad
      by_cases h7 : w &&& 0xF000 = 0x7000
      · simp only [isIllegal, h7] at hbad
        norm_num at hbad
      by_cases h8 : w &&& 0xF000 = 0x8000
      · simp only [isIllegal, h8] at hbad
        norm_num at hbad
        simp only [execute_opcode, h8]
        norm_num
        obtain ⟨⟨⟨⟨⟨⟨⟨⟨n0, n1⟩, n2⟩, n3⟩, n4⟩, n5⟩, n6⟩, n7⟩, n8⟩ := hbad
        rw [if_neg n0, if_neg n1, if_neg n2, if_neg n3, if_neg n4, if_neg n5,
            if_neg n6, if_neg n7, if_neg n8]
      by_cases h9 : w &&& 0xF000 = 0x9000
      · simp only [isIllegal, h9] at hbad
        norm_num at hbad
      by_cases hA : w &&& 0xF000 = 0xA000
      · simp only [isIllegal, hA] at hbad
        norm_num at hbad
      by_cases hB : w &&& 0xF000 = 0xB000
      · simp only [isIllegal, hB] at hbad
        norm_num at hbad
      by_cases hC : w &&& 0xF000 = 0xC000
      · simp only [isIllegal, hC] at hbad
        norm_num at hbad
      by_cases hD : w &&& 0xF000 = 0xD000
      · simp only [isIllegal, hD] at hbad
        norm_num at hbad
      by_cases hE : w &&& 0xF000 = 0xE000
      · simp only [isIllegal, hE] at hbad
        norm_num at hbad
        simp only [execute_opcode, hE]
        norm_num
        rw [if_neg hbad.1, if_neg hbad.2]
      by_cases hF : w &&& 0xF000 = 0xF000
      · simp only [isIllegal, hF] at hbad
        norm_num at hbad
        simp only [execute_opcode, hF]
        norm_num
        obtain ⟨⟨⟨⟨⟨⟨⟨⟨n0, n1⟩, n2⟩, n3⟩, n4⟩, n5⟩, n6⟩, n7⟩, n8⟩ := hbad
        rw [if_neg n0, if_neg n1, if_neg n2, if_neg n3, if_neg n4, if_neg n5,
            if_neg n6, if_neg n7, if_neg n8]
      · simp only [execute_opcode, h0, h1, h2, h3, h4, h5, h6, h7, h8, h9,
          hA, hB, hC, hD, hE, hF]
        norm_num
    rw [hexec]
    rfl
  · intro r s w hf h5
    constructor
    · simp only [isIllegal, h5]
      norm_num
    · rw [cycle_eq r s w hf]
      simp only [execute_opcode, h5]
      norm_num
      simp only [Except.map]
      rw [update_timers_pc]
  · intro r s w hf h9
    constructor
    · simp only [isIllegal, h9]
      norm_num
    · rw [cycle_eq r s w hf]
      simp only [execute_opcode, h9]
      norm_num
      simp only [Except.map]
      rw [update_timers_pc]

/-- Witness for the amended C6: opcode `0x0123` is in the reject set
and faults with exactly that opcode in the diagnostic; opcode
`0x5121` is outside the reject set and its step completes as a skip
(registers equal, so the program counter jumps from `0x200` to
`0x204`). -/
theorem c6_illegal_opcode_witness :
    emulate_cycle 0 sC6a = .error (.badOpcode 0x0123) ∧
    isIllegal 0x5121 = false ∧
    (emulate_cycle 0 sC6c).map (fun t => t.pc) = .ok 0x204 := by
  refine ⟨c6_illegal_opcode.1 0 sC6a 0x0123 (by decide) (by decide),
          (c6_illegal_opcode.2.1 0 sC6c 0x5121 (by decide) (by decide)).1, ?_⟩
  have h := (c6_illegal_opcode.2.1 0 sC6c 0x5121 (by decide) (by decide)).2
  rw [h]
  decide

/-! ## Claim C7 -/

set_option maxHeartbeats 3200000

/-- Claim C7 (amended): for every instruction that is not a jump
(`1NNN`, `BNNN`), call (`2NNN`), return (`00EE`), skip (`3XNN`,
`4XNN`, `5XY0`, `9XY0`, `EX9E`, `EXA1`), or the key-wait `FX0A`, a
successful step advances the program counter by exactly 2.  (`FX0A`
must be excluded: with no key pressed it deliberately leaves `pc`
unchanged so the same instruction is refetched — see the
counterexample.) -/
theorem c7_pc_advance (r : Nat) (s s' : Chip8) (w : Nat)
    (hf : fetch_opcode s = some w)
    (hstep : emulate_cycle r s = .ok s')
    (hn1 : w &&& 0xF000 ≠ 0x1000) (hnB : w &&& 0xF000 ≠ 0xB000)
    (hn2 : w &&& 0xF000 ≠ 0x2000) (hnR : w ≠ 0x00EE)
    (hn3 : w &&& 0xF000 ≠ 0x3000) (hn4 : w &&& 0xF000 ≠ 0x4000)
    (hn5 : w &&& 0xF000 ≠ 0x5000) (hn9 : w &&& 0xF000 ≠ 0x9000)
    (hnE : w &&& 0xF000 ≠ 0xE000)
    (hnW : ¬(w &&& 0xF000 = 0xF000 ∧ w &&& 0x00FF = 0x000A)) :
    s'.pc = s.pc + 2 := by
  obtain ⟨t, hex, hs'⟩ := cycle_ok r s s' w hf hstep
  subst hs'
  rw [update_timers_pc]
  by_cases h0 : w &&& 0xF000 = 0x0000
  · simp only [execute_opcode, h0] at hex
    norm_num at hex
    by_cases hE0 : w = 0x00E0
    · rw [if_pos hE0] at hex
      rw [Except.ok.injEq] at hex
      subst hex
      rfl
    · rw [if_neg hE0, if_neg hnR] at hex
      exact Except.noConfusion hex
  by_cases h1 : w &&& 0xF000 = 0x1000
  · exact absurd h1 hn1
  by_cases h2 : w &&& 0xF000 = 0x2000
  · exact absurd h2 hn2
  by_cases h3 : w &&& 0xF000 = 0x3000
  · exact absurd h3 hn3
  by_cases h4 : w &&& 0xF000 = 0x4000
  · exact absurd h4 hn4
  by_cases h5 : w &&& 0xF000 = 0x5000
  · exact absurd h5 hn5
  by_cases h6 : w &&& 0xF000 = 0x6000
  · simp only [execute_opcode, h6] at hex
    norm_num at hex
    first
      | (subst hex; rfl)
      | (rw [Except.ok.injEq] at hex; subst hex; rfl)
  by_cases h7 : w &&& 0xF000 = 0x7000
  · simp only [execute_opcode, h7] at hex
    norm_num at hex
    first
      | (subst hex; rfl)
      | (rw [Except.ok.injEq] at hex; subst hex; rfl)
  by_cases h8 : w &&& 0xF000 = 0x8000
  · simp only [execute_opcode, h8] at hex
    norm_num at hex
    repeat' split at hex
    all_goals
      first
        | (subst hex; rfl)
        | (rw [Except.ok.injEq] at hex; subst hex; rfl)
        | exact Except.noConfusion hex
  by_cases h9 : w &&& 0xF000 = 0x9000
  · exact absurd h9 hn9
  by_cases hA : w &&& 0xF000 = 0xA000
  · simp only [execute_opcode, hA] at hex
    norm_num at hex
    first
      | (subst hex; rfl)
      | (rw [Except.ok.injEq] at hex; subst hex; rfl)
  by_cases hB : w &&& 0xF000 = 0xB000
  · exact absurd hB hnB
  by_cases hC : w &&& 0xF000 = 0xC000
  · simp only [execute_opcode, hC] at hex
    norm_num at hex
    first
      | (subst hex; rfl)
      | (rw [Except.ok.injEq] at hex; subst hex; rfl)
  by_cases hD : w &&& 0xF000 = 0xD000
  · simp only [execute_opcode, hD] at hex
    norm_num at hex
    repeat' split at hex
    all_goals
      first
        | (subst hex; rfl)
        | (rw [Except.ok.injEq] at hex; subst hex; rfl)
        | exact Except.noConfusion hex
  by_cases hE : w &&& 0xF000 = 0xE000
  · exact absurd hE hnE
  by_cases hF : w &&& 0xF000 = 0xF000
  · have h0A : w &&& 0x00FF ≠ 0x000A := fun hc => hnW ⟨hF, hc⟩
    simp only [execute_opcode, hF] at hex
    norm_num at hex
    rw [if_neg h0A] at hex
    repeat' split at hex
    all_goals
      first
        | (subst hex; rfl)
        | (rw [Except.ok.injEq] at hex; subst hex; rfl)
        | exact Except.noConfusion hex
  · simp only [execute_opcode, h0, h1, h2, h3, h4, h5, h6, h7, h8, h9,
      hA, hB, hC, hD, hE, hF] at hex
    exact Except.noConfusion hex

set_option maxHeartbeats 200000

/-- Counterexample to C7 as stated: `0xF10A` is none of the excluded
instruction classes, the step succeeds, yet the program counter stays
at `0x200` instead of advancing to `0x202`. -/
theorem c7_pc_advance_cex :
    fetch_opcode sC7 = some 0xF10A ∧
    (0xF10A &&& 0xF000 ≠ 0x1000 ∧ 0xF10A &&& 0xF000 ≠ 0xB000 ∧
     0xF10A &&& 0xF000 ≠ 0x2000 ∧ (0xF10A : Nat) ≠ 0x00EE ∧
     0xF10A &&& 0xF000 ≠ 0x3000 ∧ 0xF10A &&& 0xF000 ≠ 0x4000 ∧
     0xF10A &&& 0xF000 ≠ 0x5000 ∧ 0xF10A &&& 0xF000 ≠ 0x9000 ∧
     0xF10A &&& 0xF000 ≠ 0xE000) ∧
    sC7.pc = 0x200 ∧
    (emulate_cycle 0 sC7).map (fun t => t.pc) = .ok 0x200 := by
  decide

/-- Witness for the amended C7 on the clear-screen instruction. -/
theorem c7_pc_advance_witness :
    (emulate_cycle 0 sC7w).map (fun t => t.pc) = .ok (sC7w.pc + 2) := by
  cases hstep : emulate_cycle 0 sC7w with
  | error e =>
    have hne : faultOf (emulate_cycle 0 sC7w) = none := by decide
    rw [hstep] at hne
    exact Option.noConfusion hne
  | ok t =>
    have hpc := c7_pc_advance 0 sC7w t 0x00E0 (by decide) hstep
      (by decide) (by decide) (by decide) (by decide) (by decide) (by decide)
      (by decide) (by decide) (by decide) (by decide)
    simp only [Except.map, hpc]

/-! ## Claim C4 -/

theorem storeRegs_lower (rg : Nat → Nat) (idx : Nat) : ∀ (cnt : Nat) (m m' : Nat → Nat),
    storeRegs m rg idx cnt = .ok m' → ∀ a, a < idx → m' a = m a := by
  intro cnt
  induction cnt with
  | zero =>
    intro m m' h a _
    unfold storeRegs at h
    rw [Except.ok.injEq] at h
    rw [← h]
  | succ k ih =>
    intro m m' h a ha
    unfold storeRegs at h
    cases hrec : storeRegs m rg idx k with
    | error e => rw [hrec] at h; exact Except.noConfusion h
    | ok mk =>
      rw [hrec] at h
      dsimp only at h
      unfold wr8 at h
      split at h
      · rw [Except.ok.injEq] at h
        rw [← h]
        rw [updf_other mk (idx + k) (rg k) a (by omega)]
        exact ih m mk hrec a ha
      · exact Except.noConfusion h

theorem wrif_lower {m : Nat → Nat} {i v : Nat} {m' : Nat → Nat}
    (h : (if i < NMEM then Except.ok (updf m i v)
          else Except.error (ε := Fault) .indexOutOfBounds) = .ok m')
    (a : Nat) (ha : a ≠ i) : m' a = m a := by
  split at h
  · rw [Except.ok.injEq] at h
    rw [← h]
    exact updf_other m i v a ha
  · exact Except.noConfusion h

set_option maxHeartbeats 3200000 in
/-- Claim C4 (amended): at construction, memory bytes `0x000`-`0x04F`
hold the built-in font data; and every successful step whose fetched
instruction is not an `FX33` or `FX55` with `index < 0x50` leaves
those bytes unchanged.  (The original claim — that no step at all can
change them — fails: `FX33`/`FX55` write to `memory[index..]`, and a
reachable state can point `index` into the font region; see the
counterexample.) -/
theorem c4_font_region :
    (∀ a, a < 0x50 → Chip8.default.memory a = FONTSET.getD a 0) ∧
    (∀ (r : Nat) (s s' : Chip8) (w : Nat), fetch_opcode s = some w →
      emulate_cycle r s = .ok s' →
      ((w &&& 0xF000 = 0xF000 ∧ (w &&& 0x00FF = 0x0033 ∨ w &&& 0x00FF = 0x0055)) →
        0x50 ≤ s.index) →
      ∀ a, a < 0x50 → s'.memory a = s.memory a) := by
  constructor
  · decide
  intro r s s' w hf hstep hcond a ha
  obtain ⟨t, hex, hs'⟩ := cycle_ok r s s' w hf hstep
  subst hs'
  rw [update_timers_memory]
  by_cases hF : w &&& 0xF000 = 0xF000
  · by_cases h33 : w &&& 0x00FF = 0x0033
    · have hidx := hcond ⟨hF, Or.inl h33⟩
      have hn7 : w &&& 0x00FF ≠ 0x0007 := by rw [h33]; decide
      have hnA : w &&& 0x00FF ≠ 0x000A := by rw [h33]; decide
      have hn15 : w &&& 0x00FF ≠ 0x0015 := by rw [h33]; decide
      have hn18 : w &&& 0x00FF ≠ 0x0018 := by rw [h33]; decide
      have hn1E : w &&& 0x00FF ≠ 0x001E := by rw [h33]; decide
      have hn29 : w &&& 0x00FF ≠ 0x0029 := by rw [h33]; decide
      simp only [execute_opcode, hF, wr8] at hex
      norm_num at hex
      rw [if_neg hn7, if_neg hnA, if_neg hn15, if_neg hn18, if_neg hn1E,
          if_neg hn29, if_pos h33] at hex
      repeat' split at hex
      all_goals
        first
          | exact Except.noConfusion hex
          | (rename_i x1 m1 hw1 x2 m2 hw2 x3 m3 hw3
             rw [Except.ok.injEq] at hex
             subst hex
             dsimp only
             rw [wrif_lower hw3 a (by omega), wrif_lower hw2 a (by omega),
                 wrif_lower hw1 a (by omega)])
    · by_cases h55 : w &&& 0x00FF = 0x0055
      · have hidx := hcond ⟨hF, Or.inr h55⟩
        have hn7 : w &&& 0x00FF ≠ 0x0007 := by rw [h55]; decide
        have hnA : w &&& 0x00FF ≠ 0x000A := by rw [h55]; decide
        have hn15 : w &&& 0x00FF ≠ 0x0015 := by rw [h55]; decide
        have hn18 : w &&& 0x00FF ≠ 0x0018 := by rw [h55]; decide
        have hn1E : w &&& 0x00FF ≠ 0x001E := by rw [h55]; decide
        have hn29 : w &&& 0x00FF ≠ 0x0029 := by rw [h55]; decide
        simp only [execute_opcode, hF] at hex
        norm_num at hex
        rw [if_neg hn7, if_neg hnA, if_neg hn15, if_neg hn18, if_neg hn1E,
            if_neg hn29, if_neg h33, if_pos h55] at hex
        cases hst : storeRegs s.memory s.reg s.index (regX w + 1) with
        | error e => rw [hst] at hex; exact Except.noConfusion hex
        | ok m' =>
          rw [hst] at hex
          dsimp only at hex
          rw [Except.ok.injEq] at hex
          rw [← hex]
          exact storeRegs_lower s.reg s.index (regX w + 1) s.memory m' hst a (by omega)
      · simp only [execute_opcode, hF] at hex
        norm_num at hex
        rw [if_neg h33, if_neg h55] at hex
        repeat' split at hex
        all_goals
          first
            | exact Except.noConfusion hex
            | (subst hex; rfl)
            | (rw [Except.ok.injEq] at hex; subst hex; rfl)
  ·
    by_cases h0 : w &&& 0xF000 = 0x0000
    · simp only [execute_opcode, h0] at hex
      norm_num at hex
      repeat' split at hex
      all_goals
        first
          | (subst hex; rfl)
          | (rw [Except.ok.injEq] at hex; subst hex; rfl)
          | exact Except.noConfusion hex
    by_cases h1 : w &&& 0xF000 = 0x1000
    · simp only [execute_opcode, h1] at hex
      norm_num at hex
      repeat' split at hex
      all_goals
        first
          | (subst hex; rfl)
          | (rw [Except.ok.injEq] at hex; subst hex; rfl)
          | exact Except.noConfusion hex
    by_cases h2 : w &&& 0xF000 = 0x2000
    · simp only [execute_opcode, h2] at hex
      norm_num at hex
      repeat' split at hex
      all_goals
        first
          | (subst hex; rfl)
          | (rw [Except.ok.injEq] at hex; subst hex; rfl)
          | exact Except.noConfusion hex
    by_cases h3 : w &&& 0xF000 = 0x3000
    · simp only [execute_opcode, h3] at hex
      norm_num at hex
      repeat' split at hex
      all_goals
        first
          | (subst hex; rfl)
          | (rw [Except.ok.injEq] at hex; subst hex; rfl)
          | exact Except.noConfusion hex
    by_cases h4 : w &&& 0xF000 = 0x4000
    · simp only [execute_opcode, h4] at hex
      norm_num at hex
      repeat' split at hex
      all_goals
        first
          | (subst hex; rfl)
          | (rw [Except.ok.injEq] at hex; subst hex; rfl)
          | exact Except.noConfusion hex
    by_cases h5 : w &&& 0xF000 = 0x5000
    · simp only [execute_opcode, h5] at hex
      norm_num at hex
      repeat' split at hex
      all_goals
        first
          | (subst hex; rfl)
          | (rw [Except.ok.injEq] at hex; subst hex; rfl)
          | exact Except.noConfusion hex
    by_cases h6 : w &&& 0xF000 = 0x6000
    · simp only [execute_opcode, h6] at hex
      norm_num at hex
      repeat' split at hex
      all_goals
        first
          | (subst hex; rfl)
          | (rw [Except.ok.injEq] at hex; subst hex; rfl)
          | exact Except.noConfusion hex
    by_cases h7 : w &&& 0xF000 = 0x7000
    · simp only [execute_opcode, h7] at hex
      norm_num at hex
      repeat' split at hex
      all_goals
        first
          | (subst hex; rfl)
          | (rw [Except.ok.injEq] at hex; subst hex; rfl)
          | exact Except.noConfusion hex
    by_cases h8 : w &&& 0xF000 = 0x8000
    · simp only [execute_opcode, h8] at hex
      norm_num at hex
      repeat' split at hex
      all_goals
        first
          | (subst hex; rfl)
          | (rw [Except.ok.injEq] at hex; subst hex; rfl)
          | exact Except.noConfusion hex
    by_cases h9 : w &&& 0xF000 = 0x9000
    · simp only [execute_opcode, h9] at hex
      norm_num at hex
      repeat' split at hex
      all_goals
        first
          | (subst hex; rfl)
          | (rw [Except.ok.injEq] at hex; subst hex; rfl)
          | exact Except.noConfusion hex
    by_cases hA : w &&& 0xF000 = 0xA000
    · simp only [execute_opcode, hA] at hex
      norm_num at hex
      repeat' split at hex
      all_goals
        first
          | (subst hex; rfl)
          | (rw [Except.ok.injEq] at hex; subst hex; rfl)
          | exact Except.noConfusion hex
    by_cases hB : w &&& 0xF000 = 0xB000
    · simp only [execute_opcode, hB] at hex
      norm_num at hex
      repeat' split at hex
      all_goals
        first
          | (subst hex; rfl)
          | (rw [Except.ok.injEq] at hex; subst hex; rfl)
          | exact Except.noConfusion hex
    by_cases hC : w &&& 0xF000 = 0xC000
    · simp only [execute_opcode, hC] at hex
      norm_num at hex
      repeat' split at hex
      all_goals
        first
          | (subst hex; rfl)
          | (rw [Except.ok.injEq] at hex; subst hex; rfl)
          | exact Except.noConfusion hex
    by_cases hD : w &&& 0xF000 = 0xD000
    · simp only [execute_opcode, hD] at hex
      norm_num at hex
      repeat' split at hex
      all_goals
        first
          | (subst hex; rfl)
          | (rw [Except.ok.injEq] at hex; subst hex; rfl)
          | exact Except.noConfusion hex
    by_cases hE : w &&& 0xF000 = 0xE000
    · simp only [execute_opcode, hE] at hex
      norm_num at hex
      repeat' split at hex
      all_goals
        first
          | (subst hex; rfl)
          | (rw [Except.ok.injEq] at hex; subst hex; rfl)
          | exact Except.noConfusion hex
    · simp only [execute_opcode, h0, h1, h2, h3, h4, h5, h6, h7, h8, h9, hA, hB, hC, hD, hE, hF] at hex
      exact Except.noConfusion hex

set_option maxHeartbeats 200000

/-- Counterexample to C4 as stated: construct the machine, load the
two-byte program `[0xF1, 0x33]` (so the state is reachable), and
step once.  `index` is 0, so `FX33` writes the BCD digits of
`reg[1] = 0` over the first three font bytes: `memory[0]` drops from
`0xF0` (the first byte of glyph 0) to `0`. -/
theorem c4_font_region_cex :
    ((load [0xF1, 0x33] Chip8.default).map (fun s0 => fetch_opcode s0)) =
      some (some 0xF133) ∧
    ((load [0xF1, 0x33] Chip8.default).map (fun s0 => (s0.index, s0.memory 0))) =
      some (0, 0xF0) ∧
    FONTSET.getD 0 0 = 0xF0 ∧
    ((load [0xF1, 0x33] Chip8.default).map (fun s0 =>
        (emulate_cycle 0 s0).map (fun t => t.memory 0))) = some (.ok 0) := by
  decide

/-- Witness for the amended C4: a `6XNN` step leaves font byte 0
unchanged. -/
theorem c4_font_region_witness :
    Chip8.default.memory 0x4F = FONTSET.getD 0x4F 0 ∧
    (emulate_cycle 0 sC4w).map (fun t => t.memory 0) = .ok (sC4w.memory 0) := by
  refine ⟨c4_font_region.1 0x4F (by decide), ?_⟩
  cases hstep : emulate_cycle 0 sC4w with
  | error e =>
    have hne : faultOf (emulate_cycle 0 sC4w) = none := by decide
    rw [hstep] at hne
    exact Option.noConfusion hne
  | ok t =>
    have hmem := c4_font_region.2 0 sC4w t 0x6105 (by decide) hstep
      (by intro hc; exact absurd hc.1 (by decide)) 0 (by decide)
    simp only [Except.map, hmem]

/-! ## Claim C5 -/

theorem drawBits_fst (byte x ys : Nat) : ∀ (k : Nat) (gv : (Nat → Bool) × Nat) (a : Nat),
    (drawBits byte x ys k gv).1 a =
      if ∃ j, j < k ∧ hitJ byte x ys j ∧ a = pixAddr x ys j
      then !(gv.1 a) else gv.1 a := by
  intro k
  induction k with
  | zero =>
    intro gv a
    rw [if_neg (by rintro ⟨j, hj, _⟩; omega)]
    rfl
  | succ k ih =>
    intro gv a
    simp only [drawBits]
    by_cases hb : x + k < 64 ∧ ys < 32
    · rw [if_pos hb]
      by_cases hbit : (byte >>> (7 - k)) &&& 1 = 1
      · rw [if_pos hbit]
        dsimp only
        unfold updb
        by_cases ha : a = 64 * ys + (x + k)
        · rw [if_pos ha]
          have hnotold : ¬∃ j, j < k ∧ hitJ byte x ys j ∧
              (64 * ys + (x + k)) = pixAddr x ys j := by
            rintro ⟨j, hj, _, hpa⟩
            unfold pixAddr at hpa
            omega
          have h1 := ih gv (64 * ys + (x + k))
          rw [if_neg hnotold] at h1
          rw [h1]
          rw [if_pos ⟨k, by omega, ⟨hbit, hb.1, hb.2⟩, by rw [ha]; rfl⟩, ha]
        · rw [if_neg ha]
          have hsame : (∃ j, j < k + 1 ∧ hitJ byte x ys j ∧ a = pixAddr x ys j) ↔
              (∃ j, j < k ∧ hitJ byte x ys j ∧ a = pixAddr x ys j) := by
            constructor
            · rintro ⟨j, hj, hh, hpa⟩
              refine ⟨j, ?_, hh, hpa⟩
              rcases Nat.lt_succ_iff_lt_or_eq.mp hj with h | h
              · exact h
              · subst h
                exact absurd (by rw [hpa]; rfl) ha
            · rintro ⟨j, hj, hh, hpa⟩
              exact ⟨j, by omega, hh, hpa⟩
          rw [ih gv a]
          simp only [hsame]
      · rw [if_neg hbit]
        have hsame : (∃ j, j < k + 1 ∧ hitJ byte x ys j ∧ a = pixAddr x ys j) ↔
            (∃ j, j < k ∧ hitJ byte x ys j ∧ a = pixAddr x ys j) := by
          constructor
          · rintro ⟨j, hj, hh, hpa⟩
            refine ⟨j, ?_, hh, hpa⟩
            rcases Nat.lt_succ_iff_lt_or_eq.mp hj with h | h
            · exact h
            · subst h
              exact absurd hh.1 hbit
          · rintro ⟨j, hj, hh, hpa⟩
            exact ⟨j, by omega, hh, hpa⟩
        rw [ih gv a]
        simp only [hsame]
    · rw [if_neg hb]
      have hsame : (∃ j, j < k + 1 ∧ hitJ byte x ys j ∧ a = pixAddr x ys j) ↔
          (∃ j, j < k ∧ hitJ byte x ys j ∧ a = pixAddr x ys j) := by
        constructor
        · rintro ⟨j, hj, hh, hpa⟩
          refine ⟨j, ?_, hh, hpa⟩
          rcases Nat.lt_succ_iff_lt_or_eq.mp hj with h | h
          · exact h
          · subst h
            exact absurd ⟨hh.2.1, hh.2.2⟩ hb
        · rintro ⟨j, hj, hh, hpa⟩
          exact ⟨j, by omega, hh, hpa⟩
      rw [ih gv a]
      simp only [hsame]

theorem drawBits_snd (byte x ys : Nat) : ∀ (k : Nat) (gv : (Nat → Bool) × Nat),
    (drawBits byte x ys k gv).2 =
      if ∃ j, j < k ∧ hitJ byte x ys j ∧ gv.1 (pixAddr x ys j) = true
      then 1 else gv.2 := by
  intro k
  induction k with
  | zero =>
    intro gv
    rw [if_neg (by rintro ⟨j, hj, _⟩; omega)]
    rfl
  | succ k ih =>
    intro gv
    simp only [drawBits]
    by_cases hb : x + k < 64 ∧ ys < 32
    · rw [if_pos hb]
      by_cases hbit : (byte >>> (7 - k)) &&& 1 = 1
      · rw [if_pos hbit]
        dsimp only
        have hnotold : ¬∃ j, j < k ∧ hitJ byte x ys j ∧
            (64 * ys + (x + k)) = pixAddr x ys j := by
          rintro ⟨j, hj, _, hpa⟩
          unfold pixAddr at hpa
          omega
        have h1 := drawBits_fst byte x ys k gv (64 * ys + (x + k))
        rw [if_neg hnotold] at h1
        by_cases hg : gv.1 (64 * ys + (x + k)) = true
        · rw [if_pos (by rw [h1]; exact hg)]
          rw [if_pos ⟨k, by omega, ⟨hbit, hb.1, hb.2⟩, hg⟩]
        · rw [if_neg (by rw [h1]; exact hg)]
          rw [ih gv]
          have hsame : (∃ j, j < k + 1 ∧ hitJ byte x ys j ∧ gv.1 (pixAddr x ys j) = true) ↔
              (∃ j, j < k ∧ hitJ byte x ys j ∧ gv.1 (pixAddr x ys j) = true) := by
            constructor
            · rintro ⟨j, hj, hh, hgj⟩
              refine ⟨j, ?_, hh, hgj⟩
              rcases Nat.lt_succ_iff_lt_or_eq.mp hj with h | h
              · exact h
              · subst h
                exact absurd hgj (by unfold pixAddr; exact hg)
            · rintro ⟨j, hj, hh, hgj⟩
              exact ⟨j, by omega, hh, hgj⟩
          simp only [hsame]
      · rw [if_neg hbit]
        rw [ih gv]
        have hsame : (∃ j, j < k + 1 ∧ hitJ byte x ys j ∧ gv.1 (pixAddr x ys j) = true) ↔
            (∃ j, j < k ∧ hitJ byte x ys j ∧ gv.1 (pixAddr x ys j) = true) := by
          constructor
          · rintro ⟨j, hj, hh, hgj⟩
            refine ⟨j, ?_, hh, hgj⟩
            rcases Nat.lt_succ_iff_lt_or_eq.mp hj with h | h
            · exact h
            · subst h
              exact absurd hh.1 hbit
          · rintro ⟨j, hj, hh, hgj⟩
            exact ⟨j, by omega, hh, hgj⟩
        simp only [hsame]
    · rw [if_neg hb]
      rw [ih gv]
      have hsame : (∃ j, j < k + 1 ∧ hitJ byte x ys j ∧ gv.1 (pixAddr x ys j) = true) ↔
          (∃ j, j < k ∧ hitJ byte x ys j ∧ gv.1 (pixAddr x ys j) = true) := by
        constructor
        · rintro ⟨j, hj, hh, hgj⟩
          refine ⟨j, ?_, hh, hgj⟩
          rcases Nat.lt_succ_iff_lt_or_eq.mp hj with h | h
          · exact h
          · subst h
            exact absurd ⟨hh.2.1, hh.2.2⟩ hb
        · rintro ⟨j, hj, hh, hgj⟩
          exact ⟨j, by omega, hh, hgj⟩
      simp only [hsame]

theorem spriteHit_rown (m : Nat → Nat) (x y start : Nat) (n j a : Nat)
    (hh : hitJ (m (start + n)) x (y + n) j) (hpa : a = pixAddr x (y + n) j) :
    ¬ spriteHit m x y start n a := by
  rintro ⟨row, hrow, j', h8', hh', hpa'⟩
  unfold pixAddr at hpa hpa'
  unfold hitJ at hh hh'
  omega

theorem drawRows_ok_bound (m : Nat → Nat) (x y start : Nat) :
    ∀ (n : Nat) (gv gv' : (Nat → Bool) × Nat), drawRows m x y start n gv = .ok gv' →
      ∀ row, row < n → start + row < NMEM := by
  intro n
  induction n with
  | zero => intro gv gv' _ row hrow; omega
  | succ n ih =>
    intro gv gv' h row hrow
    unfold drawRows at h
    cases hrec : drawRows m x y start n gv with
    | error e => rw [hrec] at h; exact Except.noConfusion h
    | ok gvk =>
      rw [hrec] at h
      dsimp only at h
      split at h
      · rcases Nat.lt_succ_iff_lt_or_eq.mp hrow with hr | hr
        · exact ih gv gvk hrec row hr
        · subst hr; assumption
      · exact Except.noConfusion h

theorem drawRows_ok_any (m : Nat → Nat) (x y start : Nat) :
    ∀ (n : Nat) (gv out gv₂ : (Nat → Bool) × Nat), drawRows m x y start n gv = .ok out →
      ∃ out₂, drawRows m x y start n gv₂ = .ok out₂ := by
  intro n
  induction n with
  | zero => intro gv out gv₂ _; exact ⟨gv₂, rfl⟩
  | succ n ih =>
    intro gv out gv₂ h
    unfold drawRows at h ⊢
    cases hrec : drawRows m x y start n gv with
    | error e => rw [hrec] at h; exact Except.noConfusion h
    | ok gvk =>
      rw [hrec] at h
      dsimp only at h
      split at h
      · obtain ⟨o2, ho2⟩ := ih gv gvk gv₂ hrec
        rw [ho2]
        dsimp only
        rw [if_pos (by assumption)]
        exact ⟨_, rfl⟩
      · exact Except.noConfusion h

theorem drawRows_fst (m : Nat → Nat) (x y start : Nat) :
    ∀ (n : Nat) (gv gv' : (Nat → Bool) × Nat), drawRows m x y start n gv = .ok gv' →
      ∀ a, gv'.1 a = if spriteHit m x y start n a then !(gv.1 a) else gv.1 a := by
  intro n
  induction n with
  | zero =>
    intro gv gv' h a
    unfold drawRows at h
    rw [Except.ok.injEq] at h
    subst h
    rw [if_neg (by rintro ⟨row, hrow, _⟩; omega)]
  | succ n ih =>
    intro gv gv' h a
    unfold drawRows at h
    cases hrec : drawRows m x y start n gv with
    | error e => rw [hrec] at h; exact Except.noConfusion h
    | ok gvk =>
      rw [hrec] at h
      dsimp only at h
      split at h
      · rw [Except.ok.injEq] at h
        subst h
        rw [drawBits_fst (m (start + n)) x (y + n) 8 gvk a]
        by_cases hrow : ∃ j, j < 8 ∧ hitJ (m (start + n)) x (y + n) j ∧
            a = pixAddr x (y + n) j
        · rw [if_pos hrow]
          obtain ⟨j, h8, hh, hpa⟩ := hrow
          have hnoth := spriteHit_rown m x y start n j a hh hpa
          rw [ih gv gvk hrec a, if_neg hnoth]
          rw [if_pos ⟨n, by omega, j, h8, hh, hpa⟩]
        · rw [if_neg hrow]
          rw [ih gv gvk hrec a]
          have hsame : spriteHit m x y start (n + 1) a ↔ spriteHit m x y start n a := by
            unfold spriteHit
            constructor
            · rintro ⟨row, hr, j, h8, hh, hpa⟩
              rcases Nat.lt_succ_iff_lt_or_eq.mp hr with hlt | heq
              · exact ⟨row, hlt, j, h8, hh, hpa⟩
              · subst heq
                exact absurd ⟨j, h8, hh, hpa⟩ hrow
            · rintro ⟨row, hr, j, h8, hh, hpa⟩
              exact ⟨row, by omega, j, h8, hh, hpa⟩
          simp only [hsame]
      · exact Except.noConfusion h

theorem drawRows_snd (m : Nat → Nat) (x y start : Nat) :
    ∀ (n : Nat) (gv gv' : (Nat → Bool) × Nat), drawRows m x y start n gv = .ok gv' →
      gv'.2 = if spriteColl m gv.1 x y start n then 1 else gv.2 := by
  intro n
  induction n with
  | zero =>
    intro gv gv' h
    unfold drawRows at h
    rw [Except.ok.injEq] at h
    subst h
    rw [if_neg (by rintro ⟨row, hrow, _⟩; omega)]
  | succ n ih =>
    intro gv gv' h
    unfold drawRows at h
    cases hrec : drawRows m x y start n gv with
    | error e => rw [hrec] at h; exact Except.noConfusion h
    | ok gvk =>
      rw [hrec] at h
      dsimp only at h
      split at h
      · rw [Except.ok.injEq] at h
        subst h
        rw [drawBits_snd (m (start + n)) x (y + n) 8 gvk]
        have hfst := drawRows_fst m x y start n gv gvk hrec
        have hrowiff : (∃ j, j < 8 ∧ hitJ (m (start + n)) x (y + n) j ∧
            gvk.1 (pixAddr x (y + n) j) = true) ↔
            (∃ j, j < 8 ∧ hitJ (m (start + n)) x (y + n) j ∧
            gv.1 (pixAddr x (y + n) j) = true) := by
          constructor
          · rintro ⟨j, h8, hh, hgk⟩
            refine ⟨j, h8, hh, ?_⟩
            have hnoth := spriteHit_rown m x y start n j (pixAddr x (y + n) j) hh rfl
            rw [hfst (pixAddr x (y + n) j), if_neg hnoth] at hgk
            exact hgk
          · rintro ⟨j, h8, hh, hg⟩
            refine ⟨j, h8, hh, ?_⟩
            have hnoth := spriteHit_rown m x y start n j (pixAddr x (y + n) j) hh rfl
            rw [hfst (pixAddr x (y + n) j), if_neg hnoth]
            exact hg
        by_cases hc1 : ∃ j, j < 8 ∧ hitJ (m (start + n)) x (y + n) j ∧
            gv.1 (pixAddr x (y + n) j) = true
        · rw [if_pos (hrowiff.mpr hc1)]
          obtain ⟨j, h8, hh, hg⟩ := hc1
          rw [if_pos ⟨n, by omega, j, h8, hh, hg⟩]
        · rw [if_neg (fun hc => hc1 (hrowiff.mp hc))]
          rw [ih gv gvk hrec]
          have hsame : spriteColl m gv.1 x y start (n + 1) ↔
              spriteColl m gv.1 x y start n := by
            unfold spriteColl
            constructor
            · rintro ⟨row, hr, j, h8, hh, hg⟩
              rcases Nat.lt_succ_iff_lt_or_eq.mp hr with hlt | heq
              · exact ⟨row, hlt, j, h8, hh, hg⟩
              · subst heq
                exact absurd ⟨j, h8, hh, hg⟩ hc1
            · rintro ⟨row, hr, j, h8, hh, hg⟩
              exact ⟨row, by omega, j, h8, hh, hg⟩
          simp only [hsame]
      · exact Except.noConfusion h

theorem drawRows_total (m : Nat → Nat) (x y start : Nat) :
    ∀ (n : Nat) (gv : (Nat → Bool) × Nat), (∀ row, row < n → start + row < NMEM) →
      ∃ out, drawRows m x y start n gv = .ok out := by
  intro n
  induction n with
  | zero => intro gv _; exact ⟨gv, rfl⟩
  | succ n ih =>
    intro gv hb
    obtain ⟨gvk, hk⟩ := ih gv (fun row hr => hb row (by omega))
    refine ⟨drawBits (m (start + n)) x (y + n) 8 gvk, ?_⟩
    unfold drawRows
    rw [hk]
    dsimp only
    rw [if_pos (hb n (by omega))]

set_option maxHeartbeats 1600000 in
theorem draw_step_char (r : Nat) (s s' : Chip8) (w : Nat)
    (hf : fetch_opcode s = some w) (hD : w &&& 0xF000 = 0xD000)
    (hstep : emulate_cycle r s = .ok s') :
    s'.draw_flag = true ∧ s'.memory = s.memory ∧ s'.index = s.index ∧
    s'.pc = s.pc + 2 ∧ s'.key = s.key ∧
    (∀ i, i ≠ 15 → s'.reg i = s.reg i) ∧
    (∀ a, s'.graphics a =
      if spriteHit s.memory (s.reg (regX w)) (s.reg (regY w)) s.index (w &&& 0x000F) a
      then !(s.graphics a) else s.graphics a) ∧
    (s'.reg 15 = if spriteColl s.memory s.graphics (s.reg (regX w)) (s.reg (regY w))
      s.index (w &&& 0x000F) then 1 else 0) ∧
    (∀ row, row < (w &&& 0x000F) → s.index + row < NMEM) := by
  obtain ⟨t, hex, hs'⟩ := cycle_ok r s s' w hf hstep
  subst hs'
  simp only [execute_opcode, hD] at hex
  norm_num at hex
  cases hdr : drawRows s.memory (s.reg (regX w)) (s.reg (regY w)) s.index
      (w &&& 0x000F) (s.graphics, 0) with
  | error e => rw [hdr] at hex; exact Except.noConfusion hex
  | ok gv =>
    rw [hdr] at hex
    dsimp only at hex
    rw [Except.ok.injEq] at hex
    subst hex
    refine ⟨?_, ?_, ?_, ?_, ?_, ?_, ?_, ?_, ?_⟩
    · rw [update_timers_draw_flag]
    · rw [update_timers_memory]
    · rw [update_timers_index]
    · rw [update_timers_pc]
    · rw [update_timers_key]
    · intro i hi
      rw [update_timers_reg]
      dsimp only
      exact updf_other _ _ _ _ hi
    · intro a
      rw [update_timers_graphics]
      exact drawRows_fst s.memory (s.reg (regX w)) (s.reg (regY w)) s.index
        (w &&& 0x000F) (s.graphics, 0) gv hdr a
    · rw [update_timers_reg]
      dsimp only
      rw [updf_same]
      exact drawRows_snd s.memory (s.reg (regX w)) (s.reg (regY w)) s.index
        (w &&& 0x000F) (s.graphics, 0) gv hdr
    · exact drawRows_ok_bound s.memory (s.reg (regX w)) (s.reg (regY w)) s.index
        (w &&& 0x000F) (s.graphics, 0) gv hdr

set_option maxHeartbeats 1600000 in
theorem draw_step_total (r : Nat) (s : Chip8) (w : Nat)
    (hf : fetch_opcode s = some w) (hD : w &&& 0xF000 = 0xD000)
    (hb : ∀ row, row < (w &&& 0x000F) → s.index + row < NMEM) :
    ∃ s', emulate_cycle r s = .ok s' := by
  rw [cycle_eq r s w hf]
  simp only [execute_opcode, hD]
  norm_num
  obtain ⟨out, hdr⟩ := drawRows_total s.memory (s.reg (regX w)) (s.reg (regY w))
    s.index (w &&& 0x000F) (s.graphics, 0) hb
  rw [hdr]
  exact ⟨_, rfl⟩

/-- Claim C5 (amended): for every machine state about to execute a
`DXYN` opcode whose step completes (the step faults instead when the
sprite rows extend past the 4096-byte memory): (a) each of the `N`
sprite rows' 8 bits is XORed into the framebuffer exactly at the
in-bounds target pixels — a pixel toggles iff some in-bounds set
sprite bit targets it (`spriteHit`), and out-of-bounds pixels are
dropped, never wrapped; (b) after the step `reg[F] = 1` iff some
drawn pixel went lit-to-unlit (`spriteColl`); (c) the redraw flag is
raised unconditionally.  Moreover, when `X, Y ≠ 0xF` (so the flag
write cannot move the sprite) and the next fetched instruction is the
same `DXYN`, the second step completes, restores the framebuffer
pointwise, and sets `reg[F] = 1` iff some in-bounds set sprite bit
targets a pixel that was unlit before the first draw (for a nonempty
visible sprite on a cleared screen this is the self-collision the
original claim describes; for an all-zero or fully-clipped sprite, or
when every target pixel was lit, the second draw leaves `reg[F] = 0`,
which refutes the unconditional claim — see the counterexample). -/
theorem c5_draw_xor_collision :
    (∀ (r : Nat) (s s' : Chip8) (w : Nat), fetch_opcode s = some w →
      w &&& 0xF000 = 0xD000 → emulate_cycle r s = .ok s' →
      s'.draw_flag = true ∧
      (∀ a, s'.graphics a =
        if spriteHit s.memory (s.reg (regX w)) (s.reg (regY w)) s.index (w &&& 0x000F) a
        then !(s.graphics a) else s.graphics a) ∧
      s'.reg 15 = (if spriteColl s.memory s.graphics (s.reg (regX w)) (s.reg (regY w))
        s.index (w &&& 0x000F) then 1 else 0)) ∧
    (∀ (r r' : Nat) (s s' : Chip8) (w : Nat), fetch_opcode s = some w →
      w &&& 0xF000 = 0xD000 → regX w ≠ 15 → regY w ≠ 15 →
      emulate_cycle r s = .ok s' → fetch_opcode s' = some w →
      (∀ a, (emulate_cycle r' s').map (fun t => t.graphics a) = .ok (s.graphics a)) ∧
      (emulate_cycle r' s').map (fun t => t.reg 15) =
        .ok (if spriteColl s.memory (fun a => !(s.graphics a)) (s.reg (regX w))
          (s.reg (regY w)) s.index (w &&& 0x000F) then 1 else 0)) := by
  constructor
  · intro r s s' w hf hD hstep
    obtain ⟨hdf, _, _, _, _, _, hgfx, hreg15, _⟩ := draw_step_char r s s' w hf hD hstep
    exact ⟨hdf, hgfx, hreg15⟩
  · intro r r' s s' w hf hD hx hy hstep1 hf2
    obtain ⟨_, hmem, hidx, _, _, hregne, hgfx, _, hbound⟩ :=
      draw_step_char r s s' w hf hD hstep1
    have hX : s'.reg (regX w) = s.reg (regX w) := hregne _ hx
    have hY : s'.reg (regY w) = s.reg (regY w) := hregne _ hy
    obtain ⟨s'', hstep2⟩ := draw_step_total r' s' w hf2 hD
      (by rw [hidx]; exact hbound)
    obtain ⟨_, _, _, _, _, _, hgfx2, hreg152, _⟩ :=
      draw_step_char r' s' s'' w hf2 hD hstep2
    rw [hmem, hidx, hX, hY] at hgfx2 hreg152
    constructor
    · intro a
      rw [hstep2]
      simp only [Except.map]
      rw [hgfx2 a, hgfx a]
      by_cases hhit : spriteHit s.memory (s.reg (regX w)) (s.reg (regY w)) s.index
          (w &&& 0x000F) a
      · rw [if_pos hhit, if_pos hhit, Bool.not_not]
      · rw [if_neg hhit, if_neg hhit]
    · rw [hstep2]
      simp only [Except.map]
      rw [hreg152]
      have hcoll : spriteColl s.memory s'.graphics (s.reg (regX w)) (s.reg (regY w))
          s.index (w &&& 0x000F) ↔
          spriteColl s.memory (fun a => !(s.graphics a)) (s.reg (regX w))
          (s.reg (regY w)) s.index (w &&& 0x000F) := by
        unfold spriteColl
        constructor
        · rintro ⟨row, hr, j, h8, hh, hg⟩
          refine ⟨row, hr, j, h8, hh, ?_⟩
          rw [hgfx (pixAddr (s.reg (regX w)) (s.reg (regY w) + row) j)] at hg
          rw [if_pos ⟨row, hr, j, h8, hh, rfl⟩] at hg
          exact hg
        · rintro ⟨row, hr, j, h8, hh, hg⟩
          refine ⟨row, hr, j, h8, hh, ?_⟩
          rw [hgfx (pixAddr (s.reg (regX w)) (s.reg (regY w) + row) j)]
          rw [if_pos ⟨row, hr, j, h8, hh, rfl⟩]
          exact hg
      simp only [hcoll]

/-- Counterexample to C5 as stated: drawing the same (empty) sprite
twice at the same location does restore the framebuffer, but the
second draw leaves `reg[F] = 0`, not 1 — no pixel ever transitions
lit-to-unlit. -/
theorem c5_draw_xor_collision_cex :
    fetch_opcode sC5 = some 0xD000 ∧
    (emulate_cycle 0 sC5).map (fun t => fetch_opcode t) = .ok (some 0xD000) ∧
    ((emulate_cycle 0 sC5).bind (emulate_cycle 0)).map
      (fun t => (t.reg 15, t.graphics 0)) = .ok (0, false) := by
  decide

/-- Witness for the amended C5: the first draw lights pixel `(0,0)`
with `reg[F] = 0`; the second draw unlights it and reports the
collision `reg[F] = 1`. -/
theorem c5_draw_xor_collision_witness :
    (emulate_cycle 0 sC5w).map (fun t => (t.draw_flag, t.graphics 0, t.reg 15)) =
      .ok (true, true, 0) ∧
    ((emulate_cycle 0 sC5w).bind (emulate_cycle 0)).map
      (fun t => (t.graphics 0, t.reg 15)) = .ok (false, 1) := by
  cases hstep : emulate_cycle 0 sC5w with
  | error e =>
    have hne : faultOf (emulate_cycle 0 sC5w) = none := by decide
    rw [hstep] at hne
    exact Option.noConfusion hne
  | ok t =>
    obtain ⟨hdf, hgfx, hreg15⟩ :=
      c5_draw_xor_collision.1 0 sC5w t 0xD001 (by decide) (by decide) hstep
    obtain ⟨_, hmem, _, hpc, _, _, _, _, _⟩ :=
      draw_step_char 0 sC5w t 0xD001 (by decide) (by decide) hstep
    have hg0 : t.graphics 0 = true := by
      rw [hgfx 0]
      decide
    have hr15 : t.reg 15 = 0 := by
      rw [hreg15]
      decide
    have hf2 : fetch_opcode t = some 0xD001 := by
      simp only [fetch_opcode, hpc, hmem]
      decide
    obtain ⟨hg2, hr2⟩ := c5_draw_xor_collision.2 0 0 sC5w t 0xD001 (by decide)
      (by decide) (by decide) (by decide) hstep hf2
    refine ⟨?_, ?_⟩
    · simp only [Except.map]
      rw [hdf, hg0, hr15]
    · rw [show (Except.ok t).bind (emulate_cycle 0) = emulate_cycle 0 t from rfl]
      cases hstep2 : emulate_cycle 0 t with
      | error e =>
        have := hg2 0
        rw [hstep2] at this
        exact Except.noConfusion this
      | ok t2 =>
        have h1 := hg2 0
        have h2 := hr2
        rw [hstep2] at h1 h2
        simp only [Except.map] at h1 h2 ⊢
        rw [Except.ok.injEq] at h1 h2
        rw [h1, h2]
        decide
